import Mathlib

/-!
Shallow embedding of the runner simulation engine found in
src/src/pages/profile.ts (the startGame closure): the run state machine,
the actor controller, the spawn director (pit sizing, flyer altitude levels,
ground obstacle generation), the axis-aligned collision test, and the
fixed-timestep update paths taken in the READY and GAMEOVER states.

Modelling conventions:
- JS numbers are modelled as rationals; every numeric constant is exact.
- Each call to the gameplay random source is an explicit rational parameter
  in the interval from 0 to 1.
- The per-obstacle mulberry32 generator is modelled exactly over Nat mod 2^32;
  every JS bitwise coercion in it goes through the residue mod 2^32, which
  matches ToInt32/ToUint32 bit patterns.
- Presentation-only state (clouds, dust particles, parallax scroll offsets,
  canvas sizing) is omitted: no claim refers to it and it feeds nothing
  modelled here. The groundY variable is always 272 in the source (resize
  assigns the constant), so it is a constant here.
-/

namespace RetroVault

inductive GameState
| READY
| RUNNING
| GAMEOVER
deriving DecidableEq, Repr

inductive ObKind
| CACTUS
| FLYER
| PIT
deriving DecidableEq, Repr

inductive Stage
| EARLY
| MID
| LATE
deriving DecidableEq, Repr

inductive GroundVariant
| CACTUS_SINGLE
| CACTUS_TALL
| CACTUS_WIDE
| CACTUS_CLUSTER_2
| CACTUS_CLUSTER_3
| ROCK_LOW
| ROCK_WIDE
| ROCK_STACK
| STUMP
deriving DecidableEq, Repr

/-- The obstacle record: the tagged union Ob of the source, with the
per-kind optional fields kept optional exactly as in the source. -/
structure Ob where
  kind : ObKind
  x : ℚ
  y : ℚ
  w : ℚ
  h : ℚ
  flightLevel : Option ℕ := none
  variant : Option GroundVariant := none
  seed : Option ℕ := none
  hardness : Option ℚ := none
deriving DecidableEq, Repr

/-- One step of a multi-step spawn pattern (the PatternStep union). -/
inductive PatternStep
| cactus (gapBase : ℚ) (tallBias : Option ℚ)
| flyer (gapBase : ℚ) (level : Option ℕ)
| pit (gapBase : ℚ) (width : Option ℚ)
deriving DecidableEq, Repr

/-- The player actor (the dino object of the source). -/
structure Dino where
  x : ℚ
  y : ℚ
  w : ℚ
  h : ℚ
  vy : ℚ
  onGround : Bool
  ducking : Bool
deriving DecidableEq, Repr

/-- The mutable simulation state captured by the startGame closure, restricted
to the gameplay fields (presentation-only fields are omitted, see the file
header). viewW is owned by resize and never reset by the run lifecycle. -/
structure SimState where
  state : GameState
  worldSpeed : ℚ
  score : ℚ
  animTime : ℚ
  distSinceSpawn : ℚ
  nextSpawnDist : ℚ
  obs : List Ob
  lastKind : ObKind
  lastFlyLevel : ℕ
  lastSpawnHardness : ℚ
  lastSpawnWasHard : Bool
  patternQueue : Option (List PatternStep)
  patternCooldownDist : ℚ
  recentPatterns : List String
  guardAfterPit : ℚ
  guardAfterLowFlyer : ℚ
  jumpDown : Bool
  downDown : Bool
  jumpBuffer : ℚ
  coyote : ℚ
  jumpHold : ℚ
  showHitboxes : Bool
  pitFall : Bool
  dino : Dino
  viewW : ℚ
deriving DecidableEq, Repr

def GRAVITY : ℚ := 1800

def JUMP_VELOCITY : ℚ := -640

def JUMP_CUT_VELOCITY : ℚ := -220

def COYOTE_TIME : ℚ := 0.10

def JUMP_BUFFER_TIME : ℚ := 0.12

def HIT_PAD : ℚ := 4

def STAND_W : ℚ := 32

def STAND_H : ℚ := 32

def DUCK_W : ℚ := 32

def DUCK_H : ℚ := 24

def PIT_MIN_W : ℚ := 90

def PIT_MAX_W_HARDCAP : ℚ := 240

def PIT_VISUAL_DEPTH : ℚ := 84

def SAFE_AFTER_PIT_DIST : ℚ := 240

def SAFE_AFTER_LOW_FLYER_DIST : ℚ := 220

/-- The ground line: resize always assigns 272 in the source. -/
def groundY : ℚ := 272

/-- Source clamp: Math.max(a, Math.min(b, n)). -/
def clamp (n a b : ℚ) : ℚ := max a (min b n)

/-- Source rand(min, max) with the Math.random() draw r passed explicitly:
min + r * (max - min). -/
def rand (lo hi r : ℚ) : ℚ := lo + r * (hi - lo)

/-- speedFactor(): clamp(worldSpeed / 260, 1, 2.35). -/
def speedFactor (worldSpeed : ℚ) : ℚ := clamp (worldSpeed / 260) 1 2.35

/-- difficulty01(): clamp((worldSpeed - 260) / 700, 0, 1). -/
def difficulty01 (worldSpeed : ℚ) : ℚ := clamp ((worldSpeed - 260) / 700) 0 1

/-- stage(): EARLY below score 600, MID below 1600, LATE after. -/
def stage (score : ℚ) : Stage :=
  if score < 600 then Stage.EARLY
  else if score < 1600 then Stage.MID
  else Stage.LATE

def m32 (n : ℕ) : ℕ := n % 4294967296

/-- Math.imul modelled on bit patterns: the product mod 2^32. -/
def imul32 (a b : ℕ) : ℕ := m32 (a * b)

/-- One output word of mulberry32 for internal counter value t, following the
source body exactly (xors, shifts, imuls, and the final unsigned coercion). -/
def mulberryOut (t : ℕ) : ℕ :=
  let t0 := m32 t
  let r0 := imul32 (Nat.xor t0 (t0 >>> 15)) (Nat.lor 1 t0)
  let r1 := Nat.xor r0 (m32 (r0 + imul32 (Nat.xor r0 (r0 >>> 7)) (Nat.lor 61 r0)))
  Nat.xor r1 (r1 >>> 14)

/-- Draw number k (0-based) of mulberry32(seed), as a rational in [0, 1):
the counter is seed plus (k+1) times 0x6d2b79f5, and the word is divided
by 2^32. -/
def mulberryDraw (seed k : ℕ) : ℚ :=
  (mulberryOut (seed + (k + 1) * 0x6d2b79f5) : ℚ) / 4294967296

/-- maxGroundWidthCap(): stage base width cap plus a speed bonus, narrowed
under active guard windows, clamped to [90, 250]. -/
def maxGroundWidthCap (s : SimState) : ℚ :=
  let st := stage s.score
  let base : ℚ := if st = Stage.EARLY then 115 else if st = Stage.MID then 155 else 190
  let extra := clamp ((s.worldSpeed - 260) * 0.08) 0 (if st = Stage.LATE then 70 else 55)
  let cap := base + extra
  let cap := if 0 < s.guardAfterPit then cap - 35 else cap
  let cap := if 0 < s.guardAfterLowFlyer ∧ st ≠ Stage.LATE then cap - 20 else cap
  clamp cap 90 250

/-- maxGroundHeightCap(): the stage base height cap. -/
def maxGroundHeightCap (s : SimState) : ℚ :=
  let st := stage s.score
  if st = Stage.EARLY then 72 else if st = Stage.MID then 82 else 90

/-- computeGroundHardness(w, h, v): normalized size plus per-variant bonus,
clamped to [0.30, 1.60]. -/
def computeGroundHardness (w h : ℚ) (v : GroundVariant) (s : SimState) : ℚ :=
  let wCap := maxGroundWidthCap s
  let hCap := maxGroundHeightCap s
  let wN := clamp (w / wCap) 0 1.25
  let hN := clamp (h / hCap) 0 1.25
  let bonus : ℚ :=
    (if v = GroundVariant.CACTUS_TALL then 0.10 else 0) +
    (if v = GroundVariant.CACTUS_WIDE then 0.18 else 0) +
    (if v = GroundVariant.CACTUS_CLUSTER_2 then 0.28 else 0) +
    (if v = GroundVariant.CACTUS_CLUSTER_3 then 0.38 else 0) +
    (if v = GroundVariant.ROCK_WIDE then 0.16 else 0) +
    (if v = GroundVariant.ROCK_STACK then 0.22 else 0) +
    (if v = GroundVariant.STUMP then 0.14 else 0)
  clamp (0.35 + wN * 0.55 + hN * 0.35 + bonus) 0.30 1.60

/-- The weighted-draw loop at the end of pickGroundVariant: r walks the pool
subtracting weights; the source falls back to CACTUS_SINGLE after the loop. -/
def pickWeighted : List (GroundVariant × ℚ) → ℚ → GroundVariant
| [], _ => GroundVariant.CACTUS_SINGLE
| (v, w) :: rest, r => if r - w ≤ 0 then v else pickWeighted rest (r - w)

/-- pickGroundVariant(tallBias) with the single Math.random() draw passed as
r; builds the stage weights, applies tall bias, difficulty boost and guard
damping, filters weights above 0.001, and draws r * total through the pool. -/
def pickGroundVariant (tallBias : ℚ) (r : ℚ) (s : SimState) : GroundVariant :=
  let st := stage s.score
  let d := difficulty01 s.worldSpeed
  let afterPit := 0 < s.guardAfterPit ∨ s.lastKind = ObKind.PIT
  let afterLowFly := 0 < s.guardAfterLowFlyer
  let wSingle : ℚ := if st = Stage.EARLY then 4.6 else if st = Stage.MID then 3.2 else 2.4
  let wTall : ℚ := if st = Stage.EARLY then 2.2 else if st = Stage.MID then 2.0 else 1.6
  let wWide : ℚ := if st = Stage.EARLY then 0.5 else if st = Stage.MID then 1.6 else 2.2
  let wStump : ℚ := if st = Stage.EARLY then 0.9 else if st = Stage.MID then 1.0 else 1.1
  let wCl2 : ℚ := if st = Stage.EARLY then 0.25 else if st = Stage.MID then 1.1 else 1.8
  let wCl3 : ℚ := if st = Stage.EARLY then 0.0 else if st = Stage.MID then 0.55 else 1.35
  let wRockLow : ℚ := if st = Stage.EARLY then 1.4 else if st = Stage.MID then 1.2 else 0.9
  let wRockWide : ℚ := if st = Stage.EARLY then 0.3 else if st = Stage.MID then 0.9 else 1.3
  let wRockStack : ℚ := if st = Stage.EARLY then 0.1 else if st = Stage.MID then 0.55 else 1.2
  let tb := clamp tallBias 0 1
  let wTall := wTall * (0.85 + tb * 0.55)
  let wCl2 := wCl2 * (0.85 + tb * 0.45)
  let wCl3 := wCl3 * (0.90 + tb * 0.50)
  let boost := 1 + d * (if st = Stage.LATE then 0.55 else 0.35)
  let wWide := wWide * boost
  let wCl2 := wCl2 * boost
  let wCl3 := wCl3 * boost
  let wRockWide := wRockWide * (boost * 0.9)
  let wRockStack := wRockStack * (boost * 0.9)
  let wWide := if afterPit then wWide * 0.35 else wWide
  let wCl2 := if afterPit then wCl2 * 0.35 else wCl2
  let wCl3 := if afterPit then wCl3 * 0.25 else wCl3
  let wRockWide := if afterPit then wRockWide * 0.40 else wRockWide
  let wRockStack := if afterPit then wRockStack * 0.35 else wRockStack
  let wWide := if afterLowFly ∧ st ≠ Stage.LATE then wWide * 0.70 else wWide
  let wCl2 := if afterLowFly ∧ st ≠ Stage.LATE then wCl2 * 0.75 else wCl2
  let wCl3 := if afterLowFly ∧ st ≠ Stage.LATE then wCl3 * 0.60 else wCl3
  let wRockWide := if afterLowFly ∧ st ≠ Stage.LATE then wRockWide * 0.75 else wRockWide
  let poolAll : List (GroundVariant × ℚ) :=
    [(GroundVariant.CACTUS_SINGLE, wSingle), (GroundVariant.CACTUS_TALL, wTall),
     (GroundVariant.CACTUS_WIDE, wWide), (GroundVariant.CACTUS_CLUSTER_2, wCl2),
     (GroundVariant.CACTUS_CLUSTER_3, wCl3), (GroundVariant.ROCK_LOW, wRockLow),
     (GroundVariant.ROCK_WIDE, wRockWide), (GroundVariant.ROCK_STACK, wRockStack),
     (GroundVariant.STUMP, wStump)]
  let pool := poolAll.filter (fun p => 0.001 < p.2)
  let total := pool.foldl (fun acc p => acc + p.2) 0
  pickWeighted pool (r * total)

/-- makeGroundDims(v, s): dimensions drawn from variant-specific ranges using
the two mulberry32(seed) draws (width first, height second), late-stage
scaling, then clamping to the stage caps. -/
def makeGroundDims (v : GroundVariant) (seed : ℕ) (s : SimState) : ℚ × ℚ :=
  let st := stage s.score
  let d := difficulty01 s.worldSpeed
  let d0 := mulberryDraw seed 0
  let d1 := mulberryDraw seed 1
  let rr0 := fun (a b : ℚ) => a + d0 * (b - a)
  let rr1 := fun (a b : ℚ) => a + d1 * (b - a)
  let wCap := maxGroundWidthCap s
  let hCap := maxGroundHeightCap s
  let wh : ℚ × ℚ :=
    match v with
    | GroundVariant.CACTUS_SINGLE =>
      (rr0 22 34, rr1 34 (if st = Stage.EARLY then 56 else 62))
    | GroundVariant.CACTUS_TALL =>
      (rr0 14 22, rr1 58 hCap)
    | GroundVariant.CACTUS_WIDE =>
      (rr0 40 (if st = Stage.EARLY then 62 else 78), rr1 30 50)
    | GroundVariant.CACTUS_CLUSTER_2 =>
      (rr0 50 (if st = Stage.EARLY then 74 else 92), rr1 40 (if st = Stage.EARLY then 62 else 74))
    | GroundVariant.CACTUS_CLUSTER_3 =>
      (rr0 68 (if st = Stage.MID then 100 else 118), rr1 42 (if st = Stage.MID then 72 else 80))
    | GroundVariant.ROCK_LOW =>
      (rr0 26 56, rr1 16 28)
    | GroundVariant.ROCK_WIDE =>
      (rr0 56 (if st = Stage.MID then 98 else 120), rr1 16 30)
    | GroundVariant.ROCK_STACK =>
      (rr0 34 66, rr1 28 48)
    | GroundVariant.STUMP =>
      (rr0 34 58, rr1 34 54)
  let w := if st = Stage.LATE then wh.1 * (1 + d * 0.08) else wh.1
  let h := if st = Stage.LATE then wh.2 * (1 + d * 0.06) else wh.2
  (clamp w 14 wCap, clamp h 14 hCap)

/-- spawnGroundObstacle(tallBias): the fresh seed and the variant-selection
draw rv are passed explicitly; appends the CACTUS obstacle and updates the
last-spawn bookkeeping. -/
def spawnGroundObstacle (tallBias : ℚ) (seed : ℕ) (rv : ℚ) (s : SimState) : SimState :=
  let v := pickGroundVariant tallBias rv s
  let dims := makeGroundDims v seed s
  let hardness := computeGroundHardness dims.1 dims.2 v s
  { s with
    obs := s.obs ++ [{ kind := ObKind.CACTUS, x := s.viewW + 40, y := groundY - dims.2,
                       w := dims.1, h := dims.2, variant := some v, seed := some seed,
                       hardness := some hardness }]
    lastKind := ObKind.CACTUS
    lastSpawnHardness := hardness
    lastSpawnWasHard := decide (1 ≤ hardness) }

/-- pickFlyLevel() with its three Math.random() draws passed explicitly
(roll, then the repeat check draw q1, then the reroll choice draw q2). -/
def pickFlyLevel (roll q1 q2 : ℚ) (s : SimState) : ℕ :=
  let d := difficulty01 s.worldSpeed
  let st := stage s.score
  let allowLow :=
    (st = Stage.MID ∧ 650 < s.score) ∨ (st = Stage.LATE ∧ (900 < s.score ∨ 0.5 < d))
  let level : ℕ :=
    if st = Stage.EARLY then (if roll < 0.7 then 1 else 2)
    else if st = Stage.MID then
      (if allowLow ∧ roll < 0.18 then 0 else if roll < 0.68 then 1 else 2)
    else
      (if allowLow ∧ roll < 0.28 then 0 else if roll < 0.62 then 1 else 2)
  let level :=
    if level = s.lastFlyLevel ∧ q1 < 0.7 then
      let level2 : ℕ :=
        if level = 1 then (if q2 < 0.5 then 2 else if allowLow then 0 else 2) else 1
      if ¬ allowLow ∧ level2 = 0 then 1 else level2
    else level
  if 0 < s.guardAfterPit ∧ level = 0 then 1 else level

/-- spawnFlyer(level?): the explicit pattern level or a pickFlyLevel draw,
with the post-pit guard forcing level 0 up to level 1; appends the FLYER and
starts the low-flyer guard when level 0 is used. -/
def spawnFlyer (level : Option ℕ) (roll q1 q2 : ℚ) (s : SimState) : SimState :=
  let w : ℚ := 48
  let h : ℚ := 24
  let useLevel0 := level.getD (pickFlyLevel roll q1 q2 s)
  let useLevel := if 0 < s.guardAfterPit ∧ useLevel0 = 0 then 1 else useLevel0
  let lowBottom := groundY - (DUCK_H + 8)
  let midBottom := groundY - (DUCK_H + 26)
  let highBottom := groundY - (STAND_H + 44)
  let bottom := if useLevel = 0 then lowBottom else if useLevel = 1 then midBottom else highBottom
  let hardness : ℚ := if useLevel = 0 then 1.10 else if useLevel = 1 then 0.75 else 0.60
  { s with
    obs := s.obs ++ [{ kind := ObKind.FLYER, x := s.viewW + 40, y := bottom - h,
                       w := w, h := h, flightLevel := some useLevel,
                       hardness := some hardness }]
    lastKind := ObKind.FLYER
    lastFlyLevel := useLevel
    lastSpawnHardness := hardness
    lastSpawnWasHard := decide (1 ≤ hardness)
    guardAfterLowFlyer := if useLevel = 0 then SAFE_AFTER_LOW_FLYER_DIST else s.guardAfterLowFlyer }

/-- computeSafePitWidth(): clamp(worldSpeed * 0.62 - 45, PIT_MIN_W,
PIT_MAX_W_HARDCAP). -/
def computeSafePitWidth (worldSpeed : ℚ) : ℚ :=
  clamp (worldSpeed * 0.62 - 45) PIT_MIN_W PIT_MAX_W_HARDCAP

/-- spawnPit(width?): an explicit width is used as given; otherwise the width
is rand(PIT_MIN_W, computeSafePitWidth()) with draw r. Appends the PIT and
starts the after-pit guard. -/
def spawnPit (width : Option ℚ) (r : ℚ) (s : SimState) : SimState :=
  let maxW := computeSafePitWidth s.worldSpeed
  let w := width.getD (rand PIT_MIN_W maxW r)
  { s with
    obs := s.obs ++ [{ kind := ObKind.PIT, x := s.viewW + 40, y := groundY,
                       w := w, h := PIT_VISUAL_DEPTH, hardness := some 1.35 }]
    lastKind := ObKind.PIT
    lastSpawnHardness := 1.35
    lastSpawnWasHard := true
    guardAfterPit := SAFE_AFTER_PIT_DIST }

/-- spawnStep(step): dispatch on the step kind, forwarding the per-kind
parameters (tallBias, level, width) exactly as the source does. -/
def spawnStep (step : PatternStep) (seed : ℕ) (rv roll q1 q2 r : ℚ) (s : SimState) : SimState :=
  match step with
  | PatternStep.cactus _ tallBias => spawnGroundObstacle (tallBias.getD 0.45) seed rv s
  | PatternStep.flyer _ level => spawnFlyer level roll q1 q2 s
  | PatternStep.pit _ width => spawnPit width r s

/-- The per-tick guard window decrement (update, RUNNING branch):
if the guard is positive it decreases by worldSpeed * dt, floored at 0. -/
def guardDecay (g v dt : ℚ) : ℚ := if 0 < g then max 0 (g - v * dt) else g

/-- queueJump(): arms the jump buffer. -/
def queueJump (s : SimState) : SimState := { s with jumpBuffer := JUMP_BUFFER_TIME }

/-- cutJumpIfNeeded(): clamps an ascent faster than the cut velocity back to
the cut velocity. -/
def cutJumpIfNeeded (s : SimState) : SimState :=
  if s.dino.vy < JUMP_CUT_VELOCITY then { s with dino := { s.dino with vy := JUMP_CUT_VELOCITY } }
  else s

/-- applyDuckVisual(duck): only honored on the ground; switches the actor
between the stand and duck rectangles keeping the feet on the ground line. -/
def applyDuckVisual (duck : Bool) (s : SimState) : SimState :=
  if !s.dino.onGround then { s with dino := { s.dino with ducking := false } }
  else if duck && !s.dino.ducking then
    { s with dino :=
      { s.dino with ducking := true, w := DUCK_W, h := DUCK_H, y := groundY - DUCK_H } }
  else if !duck && s.dino.ducking then
    { s with dino :=
      { s.dino with ducking := false, w := STAND_W, h := STAND_H, y := groundY - STAND_H } }
  else s

/-- performJump(): unduck, set the launch velocity, clear the windows.
The dust particles of the source are presentation-only and omitted. -/
def performJump (s : SimState) : SimState :=
  { s with
    dino :=
      { s.dino with ducking := false, w := STAND_W, h := STAND_H, y := groundY - STAND_H,
                    vy := JUMP_VELOCITY, onGround := false }
    jumpHold := 0
    coyote := 0
    jumpBuffer := 0 }

/-- startRunFresh(): resets the run state to initial values and enters RUNNING directly.
Note nextSpawnDist is 320 here and the jump buffer is left untouched. -/
def startRunFresh (s : SimState) : SimState :=
  { s with
    state := GameState.RUNNING
    worldSpeed := 260
    score := 0
    animTime := 0
    dino :=
      { s.dino with ducking := false, w := STAND_W, h := STAND_H, vy := 0,
                    onGround := true, y := groundY - STAND_H }
    obs := []
    distSinceSpawn := 0
    nextSpawnDist := 320
    lastKind := ObKind.CACTUS
    lastFlyLevel := 1
    lastSpawnHardness := 0.55
    lastSpawnWasHard := false
    patternQueue := none
    patternCooldownDist := 0
    recentPatterns := []
    guardAfterPit := 0
    guardAfterLowFlyer := 0
    coyote := COYOTE_TIME
    jumpHold := 0
    pitFall := false }

/-- resetToReady(): resets the run state to initial values and enters READY. Note
nextSpawnDist is 360 here and the jump buffer is cleared. The cloud
respawn of the source is presentation-only and omitted. -/
def resetToReady (s : SimState) : SimState :=
  { s with
    state := GameState.READY
    worldSpeed := 260
    score := 0
    animTime := 0
    dino :=
      { s.dino with ducking := false, w := STAND_W, h := STAND_H, vy := 0,
                    onGround := true, y := groundY - STAND_H }
    obs := []
    distSinceSpawn := 0
    nextSpawnDist := 360
    lastKind := ObKind.CACTUS
    lastFlyLevel := 1
    lastSpawnHardness := 0.55
    lastSpawnWasHard := false
    patternQueue := none
    patternCooldownDist := 0
    recentPatterns := []
    guardAfterPit := 0
    guardAfterLowFlyer := 0
    jumpBuffer := 0
    coyote := COYOTE_TIME
    jumpHold := 0
    pitFall := false }

/-- restartRun(): exactly startRunFresh(). -/
def restartRun (s : SimState) : SimState := startRunFresh s

/-- tryConsumeJump(): consumes a buffered jump; from READY this starts a
fresh run first, then (now RUNNING) jumps when grounded or within coyote
time. -/
def tryConsumeJump (s : SimState) : SimState :=
  if s.jumpBuffer ≤ 0 then s
  else
    let s1 := if s.state = GameState.READY then startRunFresh s else s
    if s1.state ≠ GameState.RUNNING then s1
    else if s1.dino.onGround || decide (0 < s1.coyote) then performJump s1
    else s1

/-- The physical keys the handlers distinguish: KeyH, KeyR, the duck keys
(KeyS / ArrowDown) and the jump keys (KeyW / ArrowUp / Space). -/
inductive Key
| keyH
| keyR
| keyS
| keyW
deriving DecidableEq, Repr

/-- onKeyDown for a non-repeated key press. -/
def onKeyDown (k : Key) (s : SimState) : SimState :=
  match k with
  | Key.keyH => { s with showHitboxes := !s.showHitboxes }
  | Key.keyR => if s.state = GameState.GAMEOVER then restartRun s else resetToReady s
  | Key.keyS => applyDuckVisual true { s with downDown := true }
  | Key.keyW =>
    let s1 := if !s.jumpDown then queueJump s else s
    { s1 with jumpDown := true }

/-- onKeyUp. -/
def onKeyUp (k : Key) (s : SimState) : SimState :=
  match k with
  | Key.keyS => { s with downDown := false }
  | Key.keyW => cutJumpIfNeeded { s with jumpDown := false }
  | _ => s

/-- onPointerDown: a tap restarts from GAMEOVER, otherwise queues a jump. -/
def onPointerDown (s : SimState) : SimState :=
  if s.state = GameState.GAMEOVER then restartRun s
  else { (queueJump s) with jumpDown := true }

/-- onPointerUp. -/
def onPointerUp (s : SimState) : SimState :=
  cutJumpIfNeeded { s with jumpDown := false }

/-- The abstract input intents of the input boundary. -/
inductive Intent
| keyDown (k : Key)
| keyUp (k : Key)
| pointerDown
| pointerUp
deriving DecidableEq, Repr

/-- Apply one intent through the matching source handler. -/
def applyIntent (i : Intent) (s : SimState) : SimState :=
  match i with
  | Intent.keyDown k => onKeyDown k s
  | Intent.keyUp k => onKeyUp k s
  | Intent.pointerDown => onPointerDown s
  | Intent.pointerUp => onPointerUp s

/-- The lifecycle state once an intent has settled: the handler runs, then
the next fixed tick attempts to consume any buffered jump (the buffer of
0.12 s always outlives the 1/120 s tick that follows the press, so composing
tryConsumeJump directly is faithful). -/
def lifecycleAfter (i : Intent) (s : SimState) : GameState :=
  (tryConsumeJump (applyIntent i s)).state

/-- The prelude of update(dt) plus its READY and GAMEOVER early-return
branches; returns none for RUNNING, whose remainder is out of scope here.
The particle aging of the prelude is presentation-only and omitted. -/
def updateNonRunning (dt : ℚ) (s : SimState) : Option SimState :=
  let s0 := { s with jumpBuffer := if 0 < s.jumpBuffer then max 0 (s.jumpBuffer - dt) else s.jumpBuffer }
  match s0.state with
  | GameState.READY => some (tryConsumeJump { s0 with coyote := COYOTE_TIME })
  | GameState.GAMEOVER => some s0
  | GameState.RUNNING => none

/-- An axis-aligned rectangle as produced by the hitbox helpers. -/
structure Rect where
  x : ℚ
  y : ℚ
  w : ℚ
  h : ℚ
deriving DecidableEq, Repr

/-- dinoHitbox(): the actor rectangle inset by HIT_PAD on every side. -/
def dinoHitbox (d : Dino) : Rect :=
  { x := d.x + HIT_PAD, y := d.y + HIT_PAD, w := d.w - HIT_PAD * 2, h := d.h - HIT_PAD * 2 }

/-- obHitbox(o): the obstacle rectangle inset by 6 for flyers, HIT_PAD
otherwise. -/
def obHitbox (o : Ob) : Rect :=
  let pad : ℚ := if o.kind = ObKind.FLYER then 6 else HIT_PAD
  { x := o.x + pad, y := o.y + pad, w := o.w - pad * 2, h := o.h - pad * 2 }

/-- aabb(a, b): the negated separation test of the source, with strict
comparisons inside the negation. -/
def aabb (a b : Rect) : Bool :=
  !(decide (a.x + a.w < b.x) || decide (b.x + b.w < a.x) ||
    decide (a.y + a.h < b.y) || decide (b.y + b.h < a.y))

/-- A concrete state used by the witnesses: a quiescent RUNNING state at the
initial speed with an empty obstacle list. -/
def demoState : SimState :=
  { state := GameState.RUNNING
    worldSpeed := 260
    score := 0
    animTime := 0
    distSinceSpawn := 0
    nextSpawnDist := 360
    obs := []
    lastKind := ObKind.CACTUS
    lastFlyLevel := 1
    lastSpawnHardness := 0.55
    lastSpawnWasHard := false
    patternQueue := none
    patternCooldownDist := 0
    recentPatterns := []
    guardAfterPit := 0
    guardAfterLowFlyer := 0
    jumpDown := false
    downDown := false
    jumpBuffer := 0
    coyote := 0.10
    jumpHold := 0
    showHitboxes := false
    pitFall := false
    dino := { x := 90, y := 240, w := 32, h := 32, vy := 0, onGround := true, ducking := false }
    viewW := 640 }

end RetroVault
namespace RetroVault

theorem spawnPit_obs (width : Option ℚ) (r : ℚ) (s : SimState) :
    (spawnPit width r s).obs =
      s.obs ++ [{ kind := ObKind.PIT, x := s.viewW + 40, y := groundY,
                  w := width.getD (rand PIT_MIN_W (computeSafePitWidth s.worldSpeed) r),
                  h := PIT_VISUAL_DEPTH, hardness := some 1.35 }] := rfl

theorem spawnPit_width_bounds (s : SimState) (r : ℚ)
    (hspeed : 260 ≤ s.worldSpeed) (hr0 : 0 ≤ r) (hr1 : r ≤ 1) :
    ∀ o ∈ (spawnPit none r s).obs, o ∉ s.obs →
      PIT_MIN_W ≤ o.w ∧ o.w ≤ min PIT_MAX_W_HARDCAP (s.worldSpeed * 0.62 - 45) ∧
      o.w ≤ s.worldSpeed * 0.62 - 45 := by
  intro o ho hnew
  rw [spawnPit_obs, List.mem_append, List.mem_singleton] at ho
  rcases ho with h | h
  · exact absurd h hnew
  · subst h
    have hcl : (581 : ℚ)/5 ≤ s.worldSpeed * 0.62 - 45 := by
      norm_num
      linarith
    have h90 : (90:ℚ) ≤ min 240 (s.worldSpeed * 0.62 - 45) :=
      le_min (by norm_num) (by linarith)
    have hmax : computeSafePitWidth s.worldSpeed = min 240 (s.worldSpeed * 0.62 - 45) := by
      unfold computeSafePitWidth clamp PIT_MIN_W PIT_MAX_W_HARDCAP
      exact max_eq_right h90
    set X := min (240:ℚ) (s.worldSpeed * 0.62 - 45) with hX
    have key : 0 ≤ (1 - r) * (X - 90) := mul_nonneg (by linarith) (by linarith)
    have key2 : 0 ≤ r * (X - 90) := mul_nonneg hr0 (by linarith)
    have hw : ((none : Option ℚ).getD (rand PIT_MIN_W (computeSafePitWidth s.worldSpeed) r))
        = 90 + r * (X - 90) := by
      rw [Option.getD_none, rand, hmax, PIT_MIN_W]
    refine ⟨?_, ?_, ?_⟩
    · show PIT_MIN_W ≤ (none : Option ℚ).getD (rand PIT_MIN_W (computeSafePitWidth s.worldSpeed) r)
      rw [hw, PIT_MIN_W]
      linarith
    · show ((none : Option ℚ).getD (rand PIT_MIN_W (computeSafePitWidth s.worldSpeed) r)) ≤
        min PIT_MAX_W_HARDCAP (s.worldSpeed * 0.62 - 45)
      rw [hw, PIT_MAX_W_HARDCAP]
      nlinarith [key]
    · show ((none : Option ℚ).getD (rand PIT_MIN_W (computeSafePitWidth s.worldSpeed) r)) ≤
        s.worldSpeed * 0.62 - 45
      rw [hw]
      have := min_le_right (240:ℚ) (s.worldSpeed * 0.62 - 45)
      nlinarith [key]

/-- C1: a pit spawned without an explicit pattern-supplied width, at any world
speed the run can reach (the speed starts at 260 and only increases while
RUNNING), has its width inside [PIT_MIN_W, min PIT_MAX_W_HARDCAP clearable]
where clearable = worldSpeed * 0.62 - 45; in particular the width never
exceeds that clearance. -/
theorem claim_C1_pit_width_solvable (s : SimState) (r : ℚ)
    (hspeed : 260 ≤ s.worldSpeed) (hr0 : 0 ≤ r) (hr1 : r ≤ 1) :
    ∀ o ∈ (spawnPit none r s).obs, o ∉ s.obs →
      PIT_MIN_W ≤ o.w ∧ o.w ≤ min PIT_MAX_W_HARDCAP (s.worldSpeed * 0.62 - 45) ∧
      o.w ≤ s.worldSpeed * 0.62 - 45 :=
  spawnPit_width_bounds s r hspeed hr0 hr1

theorem claim_C1_witness :
    (260:ℚ) ≤ demoState.worldSpeed ∧
    (PIT_MIN_W ≤ rand PIT_MIN_W (computeSafePitWidth demoState.worldSpeed) (1/2) ∧
      rand PIT_MIN_W (computeSafePitWidth demoState.worldSpeed) (1/2) ≤
        min PIT_MAX_W_HARDCAP (demoState.worldSpeed * 0.62 - 45) ∧
      rand PIT_MIN_W (computeSafePitWidth demoState.worldSpeed) (1/2) ≤
        demoState.worldSpeed * 0.62 - 45) ∧
    rand PIT_MIN_W (computeSafePitWidth demoState.worldSpeed) (1/2) = 1031/10 := by
  refine ⟨by norm_num [demoState], ?_, ?_⟩
  · have h := claim_C1_pit_width_solvable demoState (1/2)
      (by norm_num [demoState]) (by norm_num) (by norm_num)
      { kind := ObKind.PIT, x := demoState.viewW + 40, y := groundY,
        w := (none : Option ℚ).getD (rand PIT_MIN_W (computeSafePitWidth demoState.worldSpeed) (1/2)),
        h := PIT_VISUAL_DEPTH, hardness := some 1.35 }
      (by rw [spawnPit_obs]; exact List.mem_append_right _ (List.mem_singleton.mpr rfl))
      (by simp [demoState])
    exact h
  · norm_num [rand, computeSafePitWidth, clamp, PIT_MIN_W, PIT_MAX_W_HARDCAP, demoState]

end RetroVault
namespace RetroVault

/-- C2 counterexample: at the initial world speed 260 the safe pit width is
260 * 0.62 - 45 = 116.2 = 581/5, which lies outside the interval
[90, 115.2] asserted by the claim; the upper endpoint min(240, 260*0.62-45)
is 116.2, not 115.2. -/
theorem claim_C2_counterexample :
    computeSafePitWidth 260 = 581/5 ∧ ¬ ((581:ℚ)/5 ≤ 115.2) ∧
    min (240:ℚ) (260 * 0.62 - 45) ≠ 115.2 := by
  refine ⟨?_, by norm_num, by norm_num⟩
  norm_num [computeSafePitWidth, clamp, PIT_MIN_W, PIT_MAX_W_HARDCAP]

/-- C2 amended: at world speed 260, computeSafePitWidth() returns 116.2,
which is inside [90, min(240, 260*0.62-45)] = [90, 116.2], and any pit
spawned (without explicit width) at that speed has width inside [90, 116.2]. -/
theorem claim_C2_initial_speed_pit_interval (s : SimState) (r : ℚ)
    (hspeed : s.worldSpeed = 260) (hr0 : 0 ≤ r) (hr1 : r ≤ 1) :
    computeSafePitWidth 260 = 581/5 ∧
    (90:ℚ) ≤ 581/5 ∧ (581:ℚ)/5 = min 240 (260 * 0.62 - 45) ∧
    ∀ o ∈ (spawnPit none r s).obs, o ∉ s.obs → 90 ≤ o.w ∧ o.w ≤ 581/5 := by
  refine ⟨?_, by norm_num, by norm_num, ?_⟩
  · norm_num [computeSafePitWidth, clamp, PIT_MIN_W, PIT_MAX_W_HARDCAP]
  · intro o ho hnew
    have h := spawnPit_width_bounds s r (by rw [hspeed]) hr0 hr1 o ho hnew
    refine ⟨h.1, ?_⟩
    have h2 := h.2.1
    rw [hspeed] at h2
    calc o.w ≤ min PIT_MAX_W_HARDCAP (260 * 0.62 - 45) := h2
    _ ≤ (581:ℚ)/5 := by norm_num [PIT_MAX_W_HARDCAP]

theorem claim_C2_witness :
    demoState.worldSpeed = 260 ∧
    (computeSafePitWidth 260 = 581/5 ∧
      (90:ℚ) ≤ 581/5 ∧ (581:ℚ)/5 = min 240 (260 * 0.62 - 45) ∧
      (90 ≤ rand PIT_MIN_W (computeSafePitWidth demoState.worldSpeed) (1/2) ∧
        rand PIT_MIN_W (computeSafePitWidth demoState.worldSpeed) (1/2) ≤ 581/5)) := by
  refine ⟨by norm_num [demoState], ?_⟩
  have h := claim_C2_initial_speed_pit_interval demoState (1/2)
    (by norm_num [demoState]) (by norm_num) (by norm_num)
  refine ⟨h.1, h.2.1, h.2.2.1, ?_⟩
  exact h.2.2.2
    { kind := ObKind.PIT, x := demoState.viewW + 40, y := groundY,
      w := (none : Option ℚ).getD (rand PIT_MIN_W (computeSafePitWidth demoState.worldSpeed) (1/2)),
      h := PIT_VISUAL_DEPTH, hardness := some 1.35 }
    (by rw [spawnPit_obs]; exact List.mem_append_right _ (List.mem_singleton.mpr rfl))
    (by simp [demoState])

/-- C5 counterexample: two hit rectangles whose interiors are disjoint and
whose vertical edges exactly touch (the right edge of the first at x = 10
equals the left edge of the second) are reported as overlapping by aabb, so
mere edge contact does end the run. -/
theorem claim_C5_counterexample :
    ({ x := 0, y := 0, w := 10, h := 10 } : Rect).x + ({ x := 0, y := 0, w := 10, h := 10 } : Rect).w
      = ({ x := 10, y := 0, w := 10, h := 10 } : Rect).x ∧
    aabb { x := 0, y := 0, w := 10, h := 10 } { x := 10, y := 0, w := 10, h := 10 } = true := by
  constructor
  · norm_num
  · simp only [aabb, Bool.not_eq_eq_eq_not, Bool.not_true, Bool.or_eq_false_iff,
      decide_eq_false_iff_not, not_lt]
    norm_num

/-- C5 amended: edge contact counts as overlap. Whenever the first
rectangle has its right edge coinciding with the left edge of the second and their
closed vertical spans meet, aabb reports an overlap; and aabb reports no
overlap only when the rectangles are strictly separated along some axis. -/
theorem claim_C5_edge_contact_overlaps (a b : Rect)
    (hx : a.x + a.w = b.x) (hy1 : b.y ≤ a.y + a.h) (hy2 : a.y ≤ b.y + b.h)
    (hxw : a.x ≤ b.x + b.w) :
    aabb a b = true ∧
    ∀ c d : Rect, aabb c d = false →
      c.x + c.w < d.x ∨ d.x + d.w < c.x ∨ c.y + c.h < d.y ∨ d.y + d.h < c.y := by
  constructor
  · simp only [aabb, Bool.not_eq_eq_eq_not, Bool.not_true, Bool.or_eq_false_iff,
      decide_eq_false_iff_not, not_lt]
    refine ⟨⟨⟨le_of_eq hx.symm, hxw⟩, hy1⟩, hy2⟩
  · intro c d hcd
    simp only [aabb, Bool.not_eq_eq_eq_not, Bool.not_false, Bool.or_eq_true,
      decide_eq_true_eq] at hcd
    tauto

theorem claim_C5_witness :
    aabb { x := 0, y := 100, w := 30, h := 10 } { x := 30, y := 100, w := 10, h := 10 } = true := by
  have h := claim_C5_edge_contact_overlaps
    { x := 0, y := 100, w := 30, h := 10 } { x := 30, y := 100, w := 10, h := 10 }
    (by norm_num) (by norm_num) (by norm_num) (by norm_num)
  exact h.1

theorem onKeyUp_keyW_vy (t : SimState) :
    (onKeyUp Key.keyW t).dino.vy =
      if t.dino.vy < JUMP_CUT_VELOCITY then JUMP_CUT_VELOCITY else t.dino.vy := by
  simp only [onKeyUp, cutJumpIfNeeded]
  split_ifs with h <;> simp_all

/-- C7: releasing the jump intent right after a grounded jump clamps the
vertical velocity to exactly the configured jump-cut velocity, and in
general a release during an ascent at or beyond the cut speed leaves the
velocity exactly at the cut value (never larger in magnitude). -/
theorem claim_C7_jump_cut (s : SimState)
    (hrun : s.state = GameState.RUNNING) (hg : s.dino.onGround = true)
    (hjd : s.jumpDown = false) :
    (onKeyUp Key.keyW (tryConsumeJump (onKeyDown Key.keyW s))).dino.vy = JUMP_CUT_VELOCITY ∧
    (∀ t : SimState, t.dino.vy ≤ JUMP_CUT_VELOCITY →
      (onKeyUp Key.keyW t).dino.vy = JUMP_CUT_VELOCITY) := by
  constructor
  · have h2 : (tryConsumeJump (onKeyDown Key.keyW s)).dino.vy = JUMP_VELOCITY := by
      simp [onKeyDown, hjd, queueJump, tryConsumeJump, performJump, JUMP_BUFFER_TIME, hrun, hg]
      norm_num
    rw [onKeyUp_keyW_vy, h2]
    norm_num [JUMP_VELOCITY, JUMP_CUT_VELOCITY]
  · intro t ht
    rw [onKeyUp_keyW_vy]
    rcases lt_or_eq_of_le ht with h | h
    · rw [if_pos h]
    · rw [if_neg (by rw [h]; exact lt_irrefl _)]
      exact h

theorem claim_C7_witness :
    (onKeyUp Key.keyW (tryConsumeJump (onKeyDown Key.keyW demoState))).dino.vy
      = JUMP_CUT_VELOCITY := by
  exact (claim_C7_jump_cut demoState rfl rfl rfl).1

theorem spawnPit_explicit_obs (w : ℚ) (r : ℚ) (s : SimState) :
    (spawnPit (some w) r s).obs =
      s.obs ++ [{ kind := ObKind.PIT, x := s.viewW + 40, y := groundY,
                  w := w, h := PIT_VISUAL_DEPTH, hardness := some 1.35 }] := rfl

/-- C10: a pattern step of kind PIT carrying an explicit width forwards it
verbatim to spawnPit, and spawnPit with an explicit width spawns a pit of
exactly that width with no clamping against computeSafePitWidth. -/
theorem claim_C10_explicit_pit_width (w gap : ℚ) (seed : ℕ) (rv roll q1 q2 r : ℚ)
    (s : SimState) :
    spawnStep (PatternStep.pit gap (some w)) seed rv roll q1 q2 r s = spawnPit (some w) r s ∧
    ∀ o ∈ (spawnPit (some w) r s).obs, o ∉ s.obs → o.kind = ObKind.PIT ∧ o.w = w := by
  refine ⟨rfl, ?_⟩
  intro o ho hnew
  rw [spawnPit_explicit_obs, List.mem_append, List.mem_singleton] at ho
  rcases ho with h | h
  · exact absurd h hnew
  · subst h
    exact ⟨rfl, rfl⟩

theorem claim_C10_witness :
    spawnStep (PatternStep.pit 0 (some 1000)) 0 0 0 0 0 (1/2) demoState
      = spawnPit (some 1000) (1/2) demoState ∧
    ({ kind := ObKind.PIT, x := demoState.viewW + 40, y := groundY, w := 1000,
       h := PIT_VISUAL_DEPTH, hardness := some 1.35 } : Ob).kind = ObKind.PIT ∧
    ({ kind := ObKind.PIT, x := demoState.viewW + 40, y := groundY, w := 1000,
       h := PIT_VISUAL_DEPTH, hardness := some 1.35 } : Ob).w = 1000 := by
  have h := claim_C10_explicit_pit_width 1000 0 0 0 0 0 0 (1/2) demoState
  refine ⟨h.1, ?_⟩
  exact h.2
    { kind := ObKind.PIT, x := demoState.viewW + 40, y := groundY, w := 1000,
      h := PIT_VISUAL_DEPTH, hardness := some 1.35 }
    (by rw [spawnPit_explicit_obs]; exact List.mem_append_right _ (List.mem_singleton.mpr rfl))
    (by simp [demoState])

end RetroVault
namespace RetroVault

/-- C4 counterexample: resetToReady and restartRun do not yield states that
differ only in the lifecycle field: the scheduled next spawn distance is 360
after a reset but 320 after a restart. -/
theorem claim_C4_counterexample :
    (resetToReady demoState).nextSpawnDist = 360 ∧
    (restartRun demoState).nextSpawnDist = 320 ∧
    (resetToReady demoState).nextSpawnDist ≠ (restartRun demoState).nextSpawnDist := by
  refine ⟨rfl, rfl, ?_⟩
  norm_num [resetToReady, restartRun, startRunFresh]

/-- C4 amended: resetToReady and restartRun reset the actor, the
obstacle list, the spawn schedule, the guard windows, the score and the world
speed to the same initial values, except that the scheduled next spawn
distance differs (360 for reset, 320 for restart) in addition to the
lifecycle state (READY versus RUNNING). -/
theorem claim_C4_reset_restart_agree (s : SimState) :
    (resetToReady s).state = GameState.READY ∧
    (restartRun s).state = GameState.RUNNING ∧
    (resetToReady s).nextSpawnDist = 360 ∧
    (restartRun s).nextSpawnDist = 320 ∧
    (resetToReady s).worldSpeed = (restartRun s).worldSpeed ∧
    (resetToReady s).score = (restartRun s).score ∧
    (resetToReady s).animTime = (restartRun s).animTime ∧
    (resetToReady s).dino = (restartRun s).dino ∧
    (resetToReady s).obs = (restartRun s).obs ∧
    (resetToReady s).distSinceSpawn = (restartRun s).distSinceSpawn ∧
    (resetToReady s).lastKind = (restartRun s).lastKind ∧
    (resetToReady s).lastFlyLevel = (restartRun s).lastFlyLevel ∧
    (resetToReady s).lastSpawnHardness = (restartRun s).lastSpawnHardness ∧
    (resetToReady s).lastSpawnWasHard = (restartRun s).lastSpawnWasHard ∧
    (resetToReady s).patternQueue = (restartRun s).patternQueue ∧
    (resetToReady s).patternCooldownDist = (restartRun s).patternCooldownDist ∧
    (resetToReady s).recentPatterns = (restartRun s).recentPatterns ∧
    (resetToReady s).guardAfterPit = (restartRun s).guardAfterPit ∧
    (resetToReady s).guardAfterLowFlyer = (restartRun s).guardAfterLowFlyer ∧
    (resetToReady s).coyote = (restartRun s).coyote ∧
    (resetToReady s).jumpHold = (restartRun s).jumpHold ∧
    (resetToReady s).pitFall = (restartRun s).pitFall :=
  ⟨rfl, rfl, rfl, rfl, rfl, rfl, rfl, rfl, rfl, rfl, rfl, rfl, rfl, rfl, rfl, rfl, rfl,
   rfl, rfl, rfl, rfl, rfl⟩

/-- C6: spawning a pit arms the after-pit guard to its full positive
distance, while the guard is positive every flyer spawn (explicit pattern
level or fair pick) lands at a flight level other than 0, and the per-tick
guard decrement never drives the guard below zero, so the suppression lasts
exactly until the guard distance is fully consumed. -/
theorem claim_C6_no_low_flyer_during_pit_guard :
    (∀ (width : Option ℚ) (r : ℚ) (s : SimState),
      (spawnPit width r s).guardAfterPit = SAFE_AFTER_PIT_DIST ∧ (0:ℚ) < SAFE_AFTER_PIT_DIST) ∧
    (∀ (lvl : Option ℕ) (roll q1 q2 : ℚ) (s : SimState), 0 < s.guardAfterPit →
      ∀ o ∈ (spawnFlyer lvl roll q1 q2 s).obs, o ∉ s.obs → o.flightLevel ≠ some 0) ∧
    (∀ g v dt : ℚ, 0 ≤ g → 0 ≤ guardDecay g v dt) := by
  refine ⟨fun width r s => ⟨rfl, by norm_num [SAFE_AFTER_PIT_DIST]⟩, ?_, ?_⟩
  · intro lvl roll q1 q2 s hguard o ho hnew
    simp only [spawnFlyer, List.mem_append, List.mem_singleton] at ho
    rcases ho with h | h
    · exact absurd h hnew
    · subst h
      simp only [ne_eq, Option.some.injEq]
      by_cases h0 : lvl.getD (pickFlyLevel roll q1 q2 s) = 0
      · rw [if_pos ⟨hguard, h0⟩]
        exact one_ne_zero
      · rw [if_neg (fun hP => h0 hP.2)]
        exact h0
  · intro g v dt hg
    unfold guardDecay
    split_ifs
    · exact le_max_left 0 _
    · exact hg

theorem claim_C6_witness :
    (0:ℚ) < 240 ∧
    ({ kind := ObKind.FLYER, x := demoState.viewW + 40,
       y := (groundY - (DUCK_H + 26)) - 24, w := 48, h := 24,
       flightLevel := some (if (0:ℚ) < 240 ∧ (0 : ℕ) = 0 then 1 else 0),
       hardness := some (if (if (0:ℚ) < 240 ∧ (0 : ℕ) = 0 then 1 else 0) = 0 then (1.10:ℚ)
         else if (if (0:ℚ) < 240 ∧ (0 : ℕ) = 0 then 1 else 0) = 1 then 0.75
         else 0.60) } : Ob).flightLevel ≠ some 0 := by
  refine ⟨by norm_num, ?_⟩
  have h := claim_C6_no_low_flyer_during_pit_guard.2.1 (some 0) 0 0 0
    { demoState with guardAfterPit := 240 } (by norm_num)
  refine h _ ?_ (by simp [demoState])
  rw [show (spawnFlyer (some 0) 0 0 0 { demoState with guardAfterPit := 240 }).obs
      = demoState.obs ++ [_] from rfl]
  exact List.mem_append_right _ (List.mem_singleton.mpr rfl)

theorem tryConsumeJump_frozen (t : SimState) (hw : t.worldSpeed = 260) (hsc : t.score = 0)
    (hobs : t.obs = []) :
    (tryConsumeJump t).worldSpeed = 260 ∧ (tryConsumeJump t).score = 0 ∧
    (tryConsumeJump t).obs = [] := by
  simp only [tryConsumeJump]
  split_ifs <;> simp_all [startRunFresh, performJump]

/-- C8: a fixed-timestep update in the GAMEOVER state leaves the world
speed, the score and the obstacle list untouched, and so does an update in
a READY state carrying the initial values that resetToReady (the sole entry
into READY, also run at startup) establishes; in both states no obstacle is
spawned, moved or trimmed. -/
theorem claim_C8_idle_ticks_frozen (dt : ℚ) (s : SimState) :
    (∀ s2, s.state = GameState.GAMEOVER → updateNonRunning dt s = some s2 →
      s2.worldSpeed = s.worldSpeed ∧ s2.score = s.score ∧ s2.obs = s.obs) ∧
    (∀ s2, s.state = GameState.READY → s.worldSpeed = 260 → s.score = 0 → s.obs = [] →
      updateNonRunning dt s = some s2 →
      s2.worldSpeed = s.worldSpeed ∧ s2.score = s.score ∧ s2.obs = s.obs) ∧
    ((resetToReady s).state = GameState.READY ∧ (resetToReady s).worldSpeed = 260 ∧
      (resetToReady s).score = 0 ∧ (resetToReady s).obs = []) := by
  refine ⟨?_, ?_, rfl, rfl, rfl, rfl⟩
  · intro s2 hst heq
    simp only [updateNonRunning, hst] at heq
    injection heq with h
    subst h
    exact ⟨rfl, rfl, rfl⟩
  · intro s2 hst hw hsc hobs heq
    simp only [updateNonRunning, hst] at heq
    injection heq with h
    subst h
    have h2 := tryConsumeJump_frozen
      { s with
          jumpBuffer := if 0 < s.jumpBuffer then max 0 (s.jumpBuffer - dt) else s.jumpBuffer,
          coyote := COYOTE_TIME } hw hsc hobs
    rw [hst] at h2
    exact ⟨h2.1.trans hw.symm, h2.2.1.trans hsc.symm, h2.2.2.trans hobs.symm⟩

theorem claim_C8_witness :
    ({ demoState with state := GameState.GAMEOVER } : SimState).state = GameState.GAMEOVER ∧
    (({ demoState with state := GameState.GAMEOVER } : SimState).worldSpeed =
        ({ demoState with state := GameState.GAMEOVER } : SimState).worldSpeed ∧
      ({ demoState with state := GameState.GAMEOVER } : SimState).score =
        ({ demoState with state := GameState.GAMEOVER } : SimState).score ∧
      ({ demoState with state := GameState.GAMEOVER } : SimState).obs =
        ({ demoState with state := GameState.GAMEOVER } : SimState).obs) := by
  refine ⟨rfl, ?_⟩
  exact (claim_C8_idle_ticks_frozen (1/120) { demoState with state := GameState.GAMEOVER }).1
    { demoState with state := GameState.GAMEOVER } rfl
    (by simp only [updateNonRunning, demoState]; norm_num)

/-- C9 counterexample: with the same per-obstacle seed 1 and the same variant
CACTUS_SINGLE, the generator produces different heights at score 0 and at
score 700 (all other difficulty inputs equal), so the generated geometry is
not a function of the seed and variant alone. -/
theorem claim_C9_counterexample :
    (makeGroundDims GroundVariant.CACTUS_SINGLE 1 demoState).2 ≠
      (makeGroundDims GroundVariant.CACTUS_SINGLE 1 { demoState with score := 700 }).2 := by
  have h1 : mulberryDraw 1 1 = (11749833 : ℚ)/4294967296 := by
    have h0 : mulberryOut (1 + (1 + 1) * 0x6d2b79f5) = 11749833 := by decide
    rw [mulberryDraw, h0]
    norm_num
  norm_num [makeGroundDims, demoState, stage, difficulty01, clamp, maxGroundWidthCap,
    maxGroundHeightCap, h1, min_def, max_def,
    (show Stage.MID ≠ Stage.EARLY from by decide), (show Stage.MID ≠ Stage.LATE from by decide),
    (show Stage.EARLY ≠ Stage.MID from by decide), (show Stage.EARLY ≠ Stage.LATE from by decide)]

/-- C9 amended: the generated width and height are a deterministic function
of the per-obstacle seed, the variant, and the current difficulty context
(score, world speed, and the two guard windows): any two states agreeing on
those four fields produce identical dimensions, whatever their other fields
and whatever the gameplay randomness did. -/
theorem claim_C9_dims_deterministic (v : GroundVariant) (seed : ℕ) (s1 s2 : SimState)
    (hsc : s1.score = s2.score) (hsp : s1.worldSpeed = s2.worldSpeed)
    (hg1 : s1.guardAfterPit = s2.guardAfterPit)
    (hg2 : s1.guardAfterLowFlyer = s2.guardAfterLowFlyer) :
    makeGroundDims v seed s1 = makeGroundDims v seed s2 := by
  have hw : maxGroundWidthCap s1 = maxGroundWidthCap s2 := by
    unfold maxGroundWidthCap
    rw [hsc, hsp, hg1, hg2]
  have hh : maxGroundHeightCap s1 = maxGroundHeightCap s2 := by
    unfold maxGroundHeightCap
    rw [hsc]
  unfold makeGroundDims
  rw [hsc, hsp, hw, hh]

theorem claim_C9_witness :
    makeGroundDims GroundVariant.CACTUS_SINGLE 7 demoState =
      makeGroundDims GroundVariant.CACTUS_SINGLE 7 { demoState with jumpDown := true } :=
  claim_C9_dims_deterministic GroundVariant.CACTUS_SINGLE 7 demoState
    { demoState with jumpDown := true } rfl rfl rfl rfl

end RetroVault
namespace RetroVault

theorem performJump_state (t : SimState) : (performJump t).state = t.state := rfl

theorem applyDuckVisual_state (d : Bool) (t : SimState) :
    (applyDuckVisual d t).state = t.state := by
  unfold applyDuckVisual
  split_ifs <;> rfl

theorem applyDuckVisual_jumpBuffer (d : Bool) (t : SimState) :
    (applyDuckVisual d t).jumpBuffer = t.jumpBuffer := by
  unfold applyDuckVisual
  split_ifs <;> rfl

theorem cutJumpIfNeeded_state (t : SimState) : (cutJumpIfNeeded t).state = t.state := by
  unfold cutJumpIfNeeded
  split_ifs <;> rfl

theorem cutJumpIfNeeded_jumpBuffer (t : SimState) :
    (cutJumpIfNeeded t).jumpBuffer = t.jumpBuffer := by
  unfold cutJumpIfNeeded
  split_ifs <;> rfl

theorem JUMP_BUFFER_TIME_pos : (0:ℚ) < JUMP_BUFFER_TIME := by
  norm_num [JUMP_BUFFER_TIME]

theorem tryConsumeJump_state (t : SimState) :
    (tryConsumeJump t).state =
      if t.state = GameState.READY ∧ 0 < t.jumpBuffer then GameState.RUNNING else t.state := by
  simp only [tryConsumeJump]
  by_cases hb : t.jumpBuffer ≤ 0
  · rw [if_pos hb, if_neg (fun h => absurd h.2 (not_lt.mpr hb))]
  · have hb2 : 0 < t.jumpBuffer := not_le.mp hb
    rw [if_neg hb]
    by_cases hr : t.state = GameState.READY
    · simp [hr, hb2, startRunFresh, apply_ite SimState.state, performJump_state]
    · by_cases hrun : t.state = GameState.RUNNING <;>
        simp [hr, hrun, apply_ite SimState.state, performJump_state]

theorem lifecycleAfter_keyH (s : SimState) :
    lifecycleAfter (Intent.keyDown Key.keyH) s =
      if s.state = GameState.READY ∧ 0 < s.jumpBuffer then GameState.RUNNING else s.state := by
  simp [lifecycleAfter, applyIntent, onKeyDown, tryConsumeJump_state]

theorem lifecycleAfter_keyR (s : SimState) :
    lifecycleAfter (Intent.keyDown Key.keyR) s =
      if s.state = GameState.GAMEOVER then GameState.RUNNING else GameState.READY := by
  simp only [lifecycleAfter, applyIntent, onKeyDown]
  by_cases h : s.state = GameState.GAMEOVER
  · rw [if_pos h, if_pos h, tryConsumeJump_state]
    simp [restartRun, startRunFresh]
  · rw [if_neg h, if_neg h, tryConsumeJump_state]
    simp [resetToReady]

theorem lifecycleAfter_keyS (s : SimState) :
    lifecycleAfter (Intent.keyDown Key.keyS) s =
      if s.state = GameState.READY ∧ 0 < s.jumpBuffer then GameState.RUNNING else s.state := by
  simp [lifecycleAfter, applyIntent, onKeyDown, tryConsumeJump_state,
    applyDuckVisual_state, applyDuckVisual_jumpBuffer]

theorem lifecycleAfter_keyW (s : SimState) :
    lifecycleAfter (Intent.keyDown Key.keyW) s =
      if s.state = GameState.READY ∧ (s.jumpDown = false ∨ 0 < s.jumpBuffer) then
        GameState.RUNNING
      else s.state := by
  simp only [lifecycleAfter, applyIntent, onKeyDown]
  by_cases hjd : s.jumpDown
  · simp [hjd, tryConsumeJump_state]
  · simp [hjd, queueJump, tryConsumeJump_state, JUMP_BUFFER_TIME_pos]

theorem lifecycleAfter_keyUp (k : Key) (s : SimState) :
    lifecycleAfter (Intent.keyUp k) s =
      if s.state = GameState.READY ∧ 0 < s.jumpBuffer then GameState.RUNNING else s.state := by
  cases k <;>
    simp [lifecycleAfter, applyIntent, onKeyUp, tryConsumeJump_state,
      cutJumpIfNeeded_state, cutJumpIfNeeded_jumpBuffer]

theorem lifecycleAfter_pointerDown (s : SimState) :
    lifecycleAfter Intent.pointerDown s = GameState.RUNNING := by
  simp only [lifecycleAfter, applyIntent, onPointerDown]
  by_cases h : s.state = GameState.GAMEOVER
  · rw [if_pos h, tryConsumeJump_state]
    simp [restartRun, startRunFresh]
  · rw [if_neg h, tryConsumeJump_state]
    rcases hs : s.state with _ | _ | _
    · simp [queueJump, JUMP_BUFFER_TIME_pos, hs]
    · simp [queueJump, JUMP_BUFFER_TIME_pos, hs]
    · exact absurd hs h

theorem lifecycleAfter_pointerUp (s : SimState) :
    lifecycleAfter Intent.pointerUp s =
      if s.state = GameState.READY ∧ 0 < s.jumpBuffer then GameState.RUNNING else s.state := by
  simp [lifecycleAfter, applyIntent, onPointerUp, tryConsumeJump_state,
    cutJumpIfNeeded_state, cutJumpIfNeeded_jumpBuffer]

/-- C3 counterexample: from RUNNING, the reset intent (KeyR) is an input
intent that leaves the RUNNING state: after it the lifecycle is READY, so
RUNNING is not exited only by fatal collision or fall. -/
theorem claim_C3_counterexample :
    demoState.state = GameState.RUNNING ∧
    lifecycleAfter (Intent.keyDown Key.keyR) demoState = GameState.READY ∧
    lifecycleAfter (Intent.keyDown Key.keyR) demoState ≠ GameState.RUNNING := by
  refine ⟨rfl, ?_, ?_⟩ <;> rw [lifecycleAfter_keyR] <;> simp [demoState]

/-- C3 amended: from GAMEOVER only the restart intents (KeyR or a pointer
tap) change the lifecycle state, and they go to RUNNING; from a quiescent
READY state (no jump already buffered or held) only the jump intents (jump
key press or pointer tap) change the state, and they go to RUNNING; RUNNING
is left through an input intent exactly by the reset intent KeyR, which goes
to READY (fatal collision or fall, handled in the RUNNING tick itself, are
the only other exits). -/
theorem claim_C3_state_machine (s : SimState) (i : Intent) :
    (s.state = GameState.GAMEOVER →
      ((lifecycleAfter i s ≠ GameState.GAMEOVER) ↔
        (i = Intent.keyDown Key.keyR ∨ i = Intent.pointerDown))) ∧
    (s.state = GameState.GAMEOVER → (i = Intent.keyDown Key.keyR ∨ i = Intent.pointerDown) →
      lifecycleAfter i s = GameState.RUNNING) ∧
    (s.state = GameState.READY → s.jumpBuffer ≤ 0 → s.jumpDown = false →
      ((lifecycleAfter i s ≠ GameState.READY) ↔
        (i = Intent.keyDown Key.keyW ∨ i = Intent.pointerDown))) ∧
    (s.state = GameState.READY → s.jumpDown = false →
      (i = Intent.keyDown Key.keyW ∨ i = Intent.pointerDown) →
      lifecycleAfter i s = GameState.RUNNING) ∧
    (s.state = GameState.RUNNING →
      ((lifecycleAfter i s ≠ GameState.RUNNING) ↔ i = Intent.keyDown Key.keyR)) ∧
    (s.state = GameState.RUNNING → i = Intent.keyDown Key.keyR →
      lifecycleAfter i s = GameState.READY) := by
  refine ⟨?_, ?_, ?_, ?_, ?_, ?_⟩
  · intro hst
    rcases i with k | k | _ | _
    · cases k <;>
        simp [lifecycleAfter_keyH, lifecycleAfter_keyR, lifecycleAfter_keyS,
          lifecycleAfter_keyW, hst]
    · simp [lifecycleAfter_keyUp, hst]
    · simp [lifecycleAfter_pointerDown]
    · simp [lifecycleAfter_pointerUp, hst]
  · intro hst hi
    rcases hi with h | h <;> subst h
    · rw [lifecycleAfter_keyR, if_pos hst]
    · exact lifecycleAfter_pointerDown s
  · intro hst hb hjd
    have hnb : ¬ (0:ℚ) < s.jumpBuffer := not_lt.mpr hb
    rcases i with k | k | _ | _
    · cases k <;>
        simp [lifecycleAfter_keyH, lifecycleAfter_keyR, lifecycleAfter_keyS,
          lifecycleAfter_keyW, hst, hjd, hnb]
    · simp [lifecycleAfter_keyUp, hst, hnb]
    · simp [lifecycleAfter_pointerDown, hst]
    · simp [lifecycleAfter_pointerUp, hst, hnb]
  · intro hst hjd hi
    rcases hi with h | h <;> subst h
    · rw [lifecycleAfter_keyW, if_pos ⟨hst, Or.inl hjd⟩]
    · exact lifecycleAfter_pointerDown s
  · intro hst
    rcases i with k | k | _ | _
    · cases k <;>
        simp [lifecycleAfter_keyH, lifecycleAfter_keyR, lifecycleAfter_keyS,
          lifecycleAfter_keyW, hst]
    · simp [lifecycleAfter_keyUp, hst]
    · simp [lifecycleAfter_pointerDown, hst]
    · simp [lifecycleAfter_pointerUp, hst]
  · intro hst hi
    subst hi
    rw [lifecycleAfter_keyR, hst]
    simp

theorem claim_C3_witness :
    ({ demoState with state := GameState.READY } : SimState).state = GameState.READY ∧
    lifecycleAfter (Intent.keyDown Key.keyW) { demoState with state := GameState.READY }
      = GameState.RUNNING ∧
    lifecycleAfter (Intent.keyDown Key.keyR) { demoState with state := GameState.GAMEOVER }
      = GameState.RUNNING := by
  refine ⟨rfl, ?_, ?_⟩
  · exact (claim_C3_state_machine { demoState with state := GameState.READY }
      (Intent.keyDown Key.keyW)).2.2.2.1 rfl rfl (Or.inl rfl)
  · exact (claim_C3_state_machine { demoState with state := GameState.GAMEOVER }
      (Intent.keyDown Key.keyR)).2.1 rfl (Or.inl rfl)

end RetroVault
